import Mathlib

/-!
Verification development for the IlluminationBuffer repository
(`src/scripts/interceptor.js`, `src/scripts/api.js`).

The repository installs observers ("taps") on two WebGL entry points,
`gl.useProgram` and `gl.drawElements`, and runs a two-state pass detector
(Idle / InPass) over the resulting call stream.  Three variants exist in the
source:

* `armOneShotDebugCapture` — a one-shot debug detector that counts draws,
  captures the last render target of the pass, displays it, and then restores
  the original entry points (interceptor.js lines 552-628);
* `armRealTimeCapture` / `tearDownRealTime` / `onCanvasResize` plus the
  `IlluminationBufferAPI` (`getTexture` / `isReady`) — the persistent
  real-time capture path (lines 399-541);
* the API-mode activation in the second module variant (lines 224-289),
  which creates the persistent texture, registers a libWrapper tap on
  `canvas.effects.illumination.filter.apply` and fires the
  `illuminationBufferReady` hook.

Each JavaScript function is embedded below as a pure Lean function over an
explicit state record; the mutable module/closure variables become record
fields, and the observable side effects (the GPU blit, UI notifications, the
readiness hook) become explicit emission lists.
-/

/-- A WebGL render target (a `PIXI.RenderTexture` observed through
`renderer.renderTexture.current`).  Only its identity and its `valid` flag
are inspected by the source code. -/
structure RTarget where
  tid : Nat
  valid : Bool
deriving DecidableEq, Repr

/-- A WebGL program handle.  `src` is the source string of the second
attached shader (`gl.getShaderSource(gl.getAttachedShaders(program)[1])`);
`none` models the case in which that introspection throws or returns null
(no attached shaders, foreign program, ...). -/
structure Program where
  pid : Nat
  src : Option String
deriving DecidableEq, Repr

/-- Boolean test that `pat` occurs at the head of `text` (character lists). -/
def charsStartWith : List Char → List Char → Bool
  | [], _ => true
  | _ :: _, [] => false
  | a :: as, b :: bs => a = b && charsStartWith as bs

/-- Boolean substring containment on character lists: `charsContain needle hay`
is true when `needle` occurs contiguously inside `hay`. -/
def charsContain (needle : List Char) : List Char → Bool
  | [] => needle.isEmpty
  | c :: cs => charsStartWith needle (c :: cs) || charsContain needle cs

/-- JavaScript `hay.includes(needle)` on strings. -/
def jsIncludes (hay needle : String) : Bool :=
  charsContain needle.data hay.data

/-- The literal part of the regular expression
`/#define SHADER_NAME\s+([^\n]+)/` used by the debug detectors. -/
def shaderNamePat : List Char := "#define SHADER_NAME".data

/-- Attempt the tail of the regular expression at one position: after the
literal, consume at least one whitespace character, then capture the
following run of non-newline characters.  (When the remainder of the source
is pure whitespace the JavaScript regex can still match with a capture made
of whitespace, which trims to the empty string and therefore can never
contain the target tag; that corner is folded into the `none` answer here,
which produces the same "no match" outcome downstream.) -/
def captureAt (rest : List Char) : Option (List Char) :=
  let w := rest.takeWhile Char.isWhitespace
  let rem := rest.drop w.length
  if w.isEmpty then none
  else if rem.isEmpty then none
  else some (rem.takeWhile (fun c => c ≠ '\n'))

/-- Scan the source for the first position at which the whole regular
expression `/#define SHADER_NAME\s+([^\n]+)/` matches, returning the
captured group. -/
def findShaderName : List Char → Option (List Char)
  | [] => none
  | c :: cs =>
    if charsStartWith shaderNamePat (c :: cs) then
      match captureAt ((c :: cs).drop shaderNamePat.length) with
      | some cap => some cap
      | none => findShaderName cs
    else findShaderName cs

/-- Trim leading and trailing whitespace from a character list
(JavaScript `String.prototype.trim`). -/
def charsTrim (cs : List Char) : List Char :=
  ((cs.dropWhile Char.isWhitespace).reverse.dropWhile Char.isWhitespace).reverse

/-- Program-name resolution of the one-shot debug detector
(interceptor.js lines 602-607): start from `"UnknownProgram"`, try to read
the second attached shader's source and match the `SHADER_NAME` regex,
swallowing any failure. -/
def oneShotResolveName (p : Program) : String :=
  match p.src with
  | none => "UnknownProgram"
  | some s =>
    match findShaderName s.data with
    | none => "UnknownProgram"
    | some cap => String.mk (charsTrim cap)

/-- Entry test of the one-shot debug detector:
`programName.includes("pixi-shader-15")` (line 609). -/
def oneShotMatches (p : Program) : Bool :=
  jsIncludes (oneShotResolveName p) "pixi-shader-15"

/-- Entry test of the real-time detector (lines 473-478):
`source && source.includes("pixi-shader-15")`, with any exception from the
introspection swallowed. -/
def realTimeMatches (p : Program) : Bool :=
  match p.src with
  | none => false
  | some s => jsIncludes s "pixi-shader-15"

-- ====================================================================
--  One-shot debug detector (armOneShotDebugCapture, lines 552-628)
-- ====================================================================

/-- Observable outcome of the one-shot detector's exit branch: the
`EndOfPass` capture, carrying the last observed render target (if any draw
occurred) and the diagnostic draw count.  The source displays the texture
when it is present and valid, and warns otherwise. -/
inductive OneShotEmit where
  | endOfPass (captured : Option RTarget) (drawCount : Nat)
deriving DecidableEq, Repr

/-- State of the armed one-shot debug capture: `installed` says whether the
wrapped `gl.useProgram`/`gl.drawElements` are still in place (the exit branch
restores the originals), `armedGuard` mirrors
`window.illuminationBufferDebugCaptureArmed`, and the remaining fields are
the closure variables `inTargetShaderPass`, `lastCapturedTexture`,
`drawCountInPass`. -/
structure OneShotState where
  installed : Bool
  armedGuard : Bool
  inTargetShaderPass : Bool
  lastCapturedTexture : Option RTarget
  drawCountInPass : Nat
deriving DecidableEq, Repr

/-- The wrapped `gl.useProgram` of the one-shot detector (lines 578-618).
When the wrappers have been restored the call goes straight to the original
and the detector state is untouched.  Otherwise: first the exit branch (if
`inTargetShaderPass`, capture and display the last texture, restore the
original entry points and clear the guard — note the source never clears
`inTargetShaderPass` here), then the entry check on the newly bound
program. -/
def oneShotUseProgram (s : OneShotState) (p : Program) :
    OneShotState × List OneShotEmit :=
  if s.installed = false then (s, [])
  else
    let s1 :=
      if s.inTargetShaderPass then
        { s with installed := false, armedGuard := false }
      else s
    let out :=
      if s.inTargetShaderPass then
        [OneShotEmit.endOfPass s.lastCapturedTexture s.drawCountInPass]
      else []
    let s2 :=
      if oneShotMatches p then
        if s1.inTargetShaderPass = false then
          { s1 with inTargetShaderPass := true, drawCountInPass := 0 }
        else s1
      else s1
    (s2, out)

/-- The wrapped `gl.drawElements` of the one-shot detector (lines 620-627):
after forwarding, while in the target pass, increment the draw counter and
record `renderer.renderTexture.current` (the render target bound for output
at this draw, passed here as `current`). -/
def oneShotDrawElements (s : OneShotState) (current : RTarget) : OneShotState :=
  if s.installed = false then s
  else if s.inTargetShaderPass then
    { s with drawCountInPass := s.drawCountInPass + 1,
             lastCapturedTexture := some current }
  else s

/-- One event of the intercepted GL call stream: a program bind or an
indexed draw (the draw carries the render target bound for output at that
moment). -/
inductive GLEvent where
  | bind (p : Program)
  | draw (current : RTarget)
deriving DecidableEq, Repr

/-- Dispatch one GL event to the one-shot detector's wrappers. -/
def oneShotStep (s : OneShotState) : GLEvent → OneShotState × List OneShotEmit
  | GLEvent.bind p => oneShotUseProgram s p
  | GLEvent.draw t => (oneShotDrawElements s t, [])

/-- Run the one-shot detector over a list of GL events, concatenating
emissions in order. -/
def oneShotRun (s : OneShotState) : List GLEvent → OneShotState × List OneShotEmit
  | [] => (s, [])
  | e :: es =>
    let r1 := oneShotStep s e
    let r2 := oneShotRun r1.1 es
    (r2.1, r1.2 ++ r2.2)

/-- State immediately after a successful `armOneShotDebugCapture`: wrappers
installed, guard set, fresh closure variables. -/
def oneShotInit : OneShotState :=
  { installed := true, armedGuard := true, inTargetShaderPass := false,
    lastCapturedTexture := none, drawCountInPass := 0 }

/-- User-visible notifications of `armOneShotDebugCapture` itself. -/
inductive ArmNotice where
  | warnAlreadyArmed
  | errorNoGl
  | infoReady
deriving DecidableEq, Repr

/-- The arming function `armOneShotDebugCapture` (lines 552-576): reject
with a warning when the guard is already set; otherwise set the guard, and
if no WebGL context is obtainable report an error and clear the guard again
(installing nothing); otherwise install the wrappers with fresh closure
state. -/
def armOneShotDebugCapture (glAvailable : Bool) (s : OneShotState) :
    OneShotState × List ArmNotice :=
  if s.armedGuard then (s, [ArmNotice.warnAlreadyArmed])
  else if glAvailable then (oneShotInit, [ArmNotice.infoReady])
  else ({ s with armedGuard := false }, [ArmNotice.errorNoGl])

-- ====================================================================
--  Real-time capture path (lines 378-541) and consumer API (399-420)
-- ====================================================================

/-- The persistent `PIXI.RenderTexture` owned by the real-time path.
`id` identifies the concrete GPU allocation (each `PIXI.RenderTexture.create`
yields a fresh one), `populated` records whether a blit has landed in this
allocation since its creation. -/
structure Buffer where
  id : Nat
  width : Nat
  height : Nat
  resolution : Nat
  populated : Bool
deriving DecidableEq, Repr

/-- Observable side effect of the real-time exit branch: the GPU blit of the
captured ephemeral target into the persistent buffer
(`renderer.render(tempSprite, ...)`, line 461), tagged with the destination
allocation's identity and dimensions. -/
inductive RTEmit where
  | copy (src : RTarget) (dstId : Nat) (dstWidth : Nat) (dstHeight : Nat)
deriving DecidableEq, Repr

/-- Module-level and closure state of the real-time path:
`inTargetShaderPass` and `lastCapturedTexture` are the wrapper closure
variables, `persistentTexture` / `isApiReady` / `isInterceptorArmed` the
module variables.  `destroyedIds` records every allocation on which
`destroy(true)` has been called and `nextId` supplies fresh allocation
identities. -/
structure RTState where
  inTargetShaderPass : Bool
  lastCapturedTexture : Option RTarget
  persistentTexture : Option Buffer
  isApiReady : Bool
  isInterceptorArmed : Bool
  destroyedIds : List Nat
  nextId : Nat
deriving DecidableEq, Repr

/-- The body of the real-time exit branch after `inTargetShaderPass` has
already been set to false (lines 457-469): if the last captured texture is
present and valid and the persistent texture exists, blit into it and set
`isApiReady`; otherwise do nothing. -/
def rtPassExit (s : RTState) : RTState × List RTEmit :=
  match s.lastCapturedTexture, s.persistentTexture with
  | some t, some b =>
    if t.valid then
      ({ s with persistentTexture := some { b with populated := true },
                isApiReady := true },
       [RTEmit.copy t b.id b.width b.height])
    else (s, [])
  | _, _ => (s, [])

/-- The wrapped `gl.useProgram` of the real-time detector (lines 453-483).
When the interceptor is not armed the wrapper is not installed and the call
goes straight to the original.  Otherwise: exit condition first — if in the
target pass, clear the flag and run the copy — then the entry check on the
new program. -/
def rtUseProgram (s : RTState) (p : Program) : RTState × List RTEmit :=
  if s.isInterceptorArmed = false then (s, [])
  else
    let r1 :=
      if s.inTargetShaderPass then
        rtPassExit { s with inTargetShaderPass := false }
      else (s, [])
    let s2 :=
      if realTimeMatches p then { r1.1 with inTargetShaderPass := true }
      else r1.1
    (s2, r1.2)

/-- The wrapped `gl.drawElements` of the real-time detector (lines 486-493):
after forwarding, while in the target pass, record
`renderer.renderTexture.current`. -/
def rtDrawElements (s : RTState) (current : RTarget) : RTState :=
  if s.isInterceptorArmed = false then s
  else if s.inTargetShaderPass then
    { s with lastCapturedTexture := some current }
  else s

/-- `onCanvasResize(width, height)` (lines 531-541): destroy the current
persistent texture if any, then create a fresh one at the new dimensions and
the renderer's resolution. -/
def onCanvasResize (w h res : Nat) (s : RTState) : RTState :=
  let ds :=
    match s.persistentTexture with
    | some b => b.id :: s.destroyedIds
    | none => s.destroyedIds
  { s with
      persistentTexture :=
        some { id := s.nextId, width := w, height := h,
               resolution := res, populated := false },
      destroyedIds := ds,
      nextId := s.nextId + 1 }

/-- `tearDownRealTime()` (lines 502-526): restore the original WebGL
functions when armed, destroy the persistent texture and null its reference,
remove the resize listener, and reset both flags. -/
def tearDownRealTime (s : RTState) : RTState :=
  let ds :=
    match s.persistentTexture with
    | some b => b.id :: s.destroyedIds
    | none => s.destroyedIds
  { s with persistentTexture := none, destroyedIds := ds,
           isApiReady := false, isInterceptorArmed := false }

/-- `armRealTimeCapture()` (lines 433-496): bail out when no WebGL context
is available or when already armed; otherwise install the wrappers with
fresh closure variables and set the armed flag. -/
def armRealTimeCapture (glAvailable : Bool) (s : RTState) : RTState :=
  if !glAvailable || s.isInterceptorArmed then s
  else
    { s with isInterceptorArmed := true, inTargetShaderPass := false,
             lastCapturedTexture := none }

/-- The real-time `canvasReady` activation (lines 673-682): create the
persistent texture via `onCanvasResize` with the screen dimensions, then arm
the interceptor. -/
def canvasReadyRealTime (glAvailable : Bool) (w h res : Nat) (s : RTState) :
    RTState :=
  armRealTimeCapture glAvailable (onCanvasResize w h res s)

/-- Initial module state, before any hook has run. -/
def rtInit : RTState :=
  { inTargetShaderPass := false, lastCapturedTexture := none,
    persistentTexture := none, isApiReady := false,
    isInterceptorArmed := false, destroyedIds := [], nextId := 0 }

/-- Events reaching the real-time path: intercepted GL calls, resize
notifications, and the teardown hook. -/
inductive RTEvent where
  | bind (p : Program)
  | draw (current : RTarget)
  | resize (w h res : Nat)
  | teardown
deriving DecidableEq, Repr

/-- Dispatch one event to the real-time path. -/
def rtStep (s : RTState) : RTEvent → RTState × List RTEmit
  | RTEvent.bind p => rtUseProgram s p
  | RTEvent.draw t => (rtDrawElements s t, [])
  | RTEvent.resize w h res => (onCanvasResize w h res s, [])
  | RTEvent.teardown => (tearDownRealTime s, [])

/-- Run the real-time path over a list of events, concatenating emissions. -/
def rtRun (s : RTState) : List RTEvent → RTState × List RTEmit
  | [] => (s, [])
  | e :: es =>
    let r1 := rtStep s e
    let r2 := rtRun r1.1 es
    (r2.1, r1.2 ++ r2.2)

/-- `IlluminationBufferAPI.isReady()` (lines 417-419). -/
def isReady (s : RTState) : Bool := s.isApiReady

/-- `IlluminationBufferAPI.getTexture()` (lines 405-411): null before the
buffer is ready, otherwise the persistent texture reference. -/
def getTexture (s : RTState) : Option Buffer :=
  if s.isApiReady = false then none else s.persistentTexture

/-- Allocation-safety invariant of the real-time path: the live persistent
texture was never destroyed and all identities are below the fresh-identity
counter. -/
def rtInvariant (s : RTState) : Prop :=
  (∀ b, s.persistentTexture = some b → b.id ∉ s.destroyedIds ∧ b.id < s.nextId) ∧
  (∀ i, i ∈ s.destroyedIds → i < s.nextId)

-- ====================================================================
--  API-mode activation of the second module variant (lines 224-289)
--  together with api.js (IlluminationBufferAPI class)
-- ====================================================================

/-- The persistent texture owned by `api.js` (`_persistentTexture`). -/
structure ApiTex where
  id : Nat
  width : Nat
  height : Nat
  populated : Bool
deriving DecidableEq, Repr

/-- Observable emissions of the API-mode activation: the error/warning
notifications of the `canvasReady` handler, the one-time
`illuminationBufferReady` hook (`Hooks.callAll`, line 286), and each blit
performed by `api.updateFromSource`. -/
inductive ApiEmit where
  | warnNeedsLibWrapper
  | errorNoTarget
  | notifyReady
  | copyPerformed (dstId : Nat)
deriving DecidableEq, Repr

/-- State of the API-mode path: the `api.js` persistent texture, whether the
libWrapper tap on `canvas.effects.illumination.filter.apply` was installed,
the `interceptorState.didCopy` flag, and a fresh-identity counter. -/
structure ApiModeState where
  persistentTexture : Option ApiTex
  wrapperInstalled : Bool
  didCopy : Bool
  nextId : Nat
deriving DecidableEq, Repr

/-- `api.initialize(renderer)` (api.js lines 8-18): destroy any existing
texture and create a fresh one at the renderer's screen dimensions. -/
def apiInitialize (w h : Nat) (s : ApiModeState) : ApiModeState :=
  { s with
      persistentTexture :=
        some { id := s.nextId, width := w, height := h, populated := false },
      nextId := s.nextId + 1 }

/-- `api.updateFromSource(sourceTexture, renderer)` (api.js lines 24-35):
abort silently unless the source is valid and the persistent texture exists;
otherwise blit into the persistent texture. -/
def updateFromSource (src : RTarget) (s : ApiModeState) :
    ApiModeState × List ApiEmit :=
  if src.valid = false then (s, [])
  else
    match s.persistentTexture with
    | none => (s, [])
    | some b =>
      ({ s with persistentTexture := some { b with populated := true } },
       [ApiEmit.copyPerformed b.id])

/-- The API-mode `canvasReady` handler (interceptor.js lines 224-289, debug
mode off): initialize the api texture, install the libWrapper tap when
libWrapper is active and the target method exists (reporting otherwise), and
finally fire the `illuminationBufferReady` hook — unconditionally, before
any capture has happened. -/
def canvasReadyApiMode (libWrapperActive targetExists : Bool) (w h : Nat)
    (s : ApiModeState) : ApiModeState × List ApiEmit :=
  let s1 := apiInitialize w h s
  let r :=
    if libWrapperActive then
      if targetExists then ({ s1 with wrapperInstalled := true }, ([] : List ApiEmit))
      else (s1, [ApiEmit.errorNoTarget])
    else (s1, [ApiEmit.warnNeedsLibWrapper])
  (r.1, r.2 ++ [ApiEmit.notifyReady])

/-- One invocation of the libWrapper tap on
`canvas.effects.illumination.filter.apply` (lines 241-251): when installed,
forward, copy the engine's illumination texture via `updateFromSource`, and
set `didCopy`. -/
def filterApplyWrapper (src : RTarget) (s : ApiModeState) :
    ApiModeState × List ApiEmit :=
  if s.wrapperInstalled then
    let r := updateFromSource src s
    ({ r.1 with didCopy := true }, r.2)
  else (s, [])

/-- Run a sequence of `filter.apply` invocations. -/
def filterApplyRun (s : ApiModeState) : List RTarget → ApiModeState × List ApiEmit
  | [] => (s, [])
  | t :: ts =>
    let r1 := filterApplyWrapper t s
    let r2 := filterApplyRun r1.1 ts
    (r2.1, r1.2 ++ r2.2)

/-- Initial API-mode state. -/
def apiInit : ApiModeState :=
  { persistentTexture := none, wrapperInstalled := false,
    didCopy := false, nextId := 0 }

/-- Recognizer for the readiness notification. -/
def isNotifyReady : ApiEmit → Bool
  | ApiEmit.notifyReady => true
  | _ => false

-- ====================================================================
--  Call-stream tap transparency model (wrappers at lines 453-493 and
--  restore at lines 506-512)
-- ====================================================================

/-- The ambient GL world as seen through the two intercepted entry points:
an arbitrary opaque component `base` plus the render target currently bound
for output (`renderer.renderTexture.current`). -/
structure GlWorld (W : Type) where
  base : W
  currentTarget : RTarget

/-- Arbitrary semantics of the two original entry points
(`originalGLFunctions.useProgram` / `originalGLFunctions.drawElements`):
each consumes the world and its argument and yields the new world plus a
return value. -/
structure OrigSem (W A R : Type) where
  onUseProgram : GlWorld W → Program → GlWorld W × R
  onDrawElements : GlWorld W → A → GlWorld W × R

/-- A call fed to the tapped entry points. -/
inductive GlCall (A : Type) where
  | useProgramCall (p : Program)
  | drawElementsCall (a : A)
deriving DecidableEq, Repr

/-- Result of a baseline (untapped) run. -/
structure BaseResult (W R : Type) where
  world : GlWorld W
  rets : List R

/-- Baseline semantics: every call goes directly to the original. -/
def baselineRun (o : OrigSem W A R) (g : GlWorld W) :
    List (GlCall A) → BaseResult W R
  | [] => { world := g, rets := [] }
  | c :: cs =>
    let r :=
      match c with
      | GlCall.useProgramCall p => o.onUseProgram g p
      | GlCall.drawElementsCall a => o.onDrawElements g a
    let rest := baselineRun o r.1 cs
    { world := rest.world, rets := r.2 :: rest.rets }

/-- Result of one tapped call: detector state, world, return value handed to
the caller, and the calls forwarded to the originals. -/
structure TapStepResult (W A R : Type) where
  det : RTState
  world : GlWorld W
  ret : R
  forwarded : List (GlCall A)

/-- One call through the installed real-time wrappers: the `useProgram`
wrapper runs the detector and then returns
`originalGLFunctions.useProgram.apply(this, arguments)` (line 482); the
`drawElements` wrapper first forwards, then records the current render
target, then returns the original's value (lines 486-493). -/
def tapStep (o : OrigSem W A R) (det : RTState) (g : GlWorld W) :
    GlCall A → TapStepResult W A R
  | GlCall.useProgramCall p =>
    let de := rtUseProgram det p
    let r := o.onUseProgram g p
    { det := de.1, world := r.1, ret := r.2,
      forwarded := [GlCall.useProgramCall p] }
  | GlCall.drawElementsCall a =>
    let r := o.onDrawElements g a
    { det := rtDrawElements det r.1.currentTarget, world := r.1, ret := r.2,
      forwarded := [GlCall.drawElementsCall a] }

/-- Result of a tapped run. -/
structure TapResult (W A R : Type) where
  det : RTState
  world : GlWorld W
  rets : List R
  forwarded : List (GlCall A)

/-- Run a list of calls through the installed wrappers. -/
def tapRun (o : OrigSem W A R) (det : RTState) (g : GlWorld W) :
    List (GlCall A) → TapResult W A R
  | [] => { det := det, world := g, rets := [], forwarded := [] }
  | c :: cs =>
    let st := tapStep o det g c
    let rest := tapRun o st.det st.world cs
    { det := rest.det, world := rest.world, rets := st.ret :: rest.rets,
      forwarded := st.forwarded ++ rest.forwarded }

-- ====================================================================
--  Auxiliary definitions and concrete fixtures
-- ====================================================================

/-- Last element recorded by successive overwrites of an option register:
`lastOpt d ts` is the value of a register initialized to `d` after writing
`some t` for each `t` in `ts` in order. -/
def lastOpt (d : Option RTarget) : List RTarget → Option RTarget
  | [] => d
  | t :: ts => lastOpt (some t) ts

/-- Events that can re-enter the patched entry points from inside the
end-of-pass blit: program binds that do not match the target identifier (the
blit uses PIXI's sprite shader) and draw calls. -/
def rtReentrantEvent : RTEvent → Prop
  | RTEvent.bind p => realTimeMatches p = false
  | RTEvent.draw _ => True
  | RTEvent.resize _ _ _ => False
  | RTEvent.teardown => False

/-- A program whose second attached shader carries the target tag. -/
def progTarget : Program :=
  { pid := 0, src := some "#define SHADER_NAME pixi-shader-15\nprecision highp float;" }

/-- A program with an introspectable source that does not carry the tag. -/
def progOther : Program :=
  { pid := 1, src := some "#define SHADER_NAME pixi-batch-quad\nprecision highp float;" }

/-- A program whose shader introspection fails. -/
def progOpaque : Program := { pid := 2, src := none }

/-- A valid render target with the given identity. -/
def tv (n : Nat) : RTarget := { tid := n, valid := true }

/-- A concrete semantics for the original entry points, used to instantiate
the transparency theorems: binding a program advances a counter, drawing
rebinds the current render target and echoes its argument. -/
def origSemFix : OrigSem Nat Nat Nat :=
  { onUseProgram := fun g _ => ({ g with base := g.base + 1 }, g.base),
    onDrawElements := fun g a => ({ g with currentTarget := tv a }, a) }

/-- A concrete initial GL world. -/
def glWorldFix : GlWorld Nat := { base := 0, currentTarget := tv 0 }

-- ====================================================================
--  Helper lemmas
-- ====================================================================

theorem lastOpt_some_getLast : ∀ (ts : List RTarget) (t : RTarget),
    lastOpt (some t) ts = (t :: ts).getLast? := by
  intro ts
  induction ts with
  | nil => intro t; rfl
  | cons a ts ih =>
    intro t
    rw [List.getLast?_cons_cons]
    exact ih a

theorem lastOpt_none_getLast (ts : List RTarget) :
    lastOpt none ts = ts.getLast? := by
  cases ts with
  | nil => rfl
  | cons a ts => exact lastOpt_some_getLast ts a

theorem oneShotRun_append (l1 l2 : List GLEvent) : ∀ s : OneShotState,
    oneShotRun s (l1 ++ l2) =
      ((oneShotRun (oneShotRun s l1).1 l2).1,
       (oneShotRun s l1).2 ++ (oneShotRun (oneShotRun s l1).1 l2).2) := by
  induction l1 with
  | nil => intro s; simp [oneShotRun]
  | cons e l1 ih =>
    intro s
    simp only [List.cons_append, oneShotRun, List.append_eq, ih, List.append_assoc]

theorem oneShot_runDraws : ∀ (ts : List RTarget) (s : OneShotState),
    s.installed = true → s.inTargetShaderPass = true →
    oneShotRun s (ts.map GLEvent.draw) =
      ({ s with drawCountInPass := s.drawCountInPass + ts.length,
                lastCapturedTexture := lastOpt s.lastCapturedTexture ts }, []) := by
  intro ts
  induction ts with
  | nil => intro s h1 h2; rfl
  | cons t ts ih =>
    intro s h1 h2
    have hstep : oneShotDrawElements s t =
        { s with drawCountInPass := s.drawCountInPass + 1,
                 lastCapturedTexture := some t } := by
      simp [oneShotDrawElements, h1, h2]
    have hrec := ih { s with drawCountInPass := s.drawCountInPass + 1,
                             lastCapturedTexture := some t } h1 h2
    simp only [List.map_cons, oneShotRun, oneShotStep, hstep, hrec]
    have hc : s.drawCountInPass + 1 + ts.length
        = s.drawCountInPass + (ts.length + 1) := by omega
    simp [hc, lastOpt]

-- ====================================================================
--  C1
-- ====================================================================

/-- C1: for every event sequence consisting of a bind of a program matching
the target identifier, followed by N indexed draw calls, followed by a bind
of a non-matching program, the armed one-shot pass detector emits exactly
one `EndOfPass` event, its draw count equals N, and the captured target is
the render target bound for output at the last (Nth) draw. -/
theorem oneShot_single_endOfPass (pT pO : Program) (ts : List RTarget)
    (hT : oneShotMatches pT = true) (hO : oneShotMatches pO = false) :
    (oneShotRun oneShotInit
        (GLEvent.bind pT :: (ts.map GLEvent.draw ++ [GLEvent.bind pO]))).2
      = [OneShotEmit.endOfPass ts.getLast? ts.length] := by
  have hstep1 : oneShotUseProgram oneShotInit pT
      = ({ installed := true, armedGuard := true, inTargetShaderPass := true,
           lastCapturedTexture := none, drawCountInPass := 0 }, []) := by
    simp [oneShotUseProgram, oneShotInit, hT]
  have hdraws := oneShot_runDraws ts
      { installed := true, armedGuard := true, inTargetShaderPass := true,
        lastCapturedTexture := none, drawCountInPass := 0 } rfl rfl
  simp only [Nat.zero_add] at hdraws
  have hfin : oneShotUseProgram
      { installed := true, armedGuard := true, inTargetShaderPass := true,
        lastCapturedTexture := lastOpt none ts, drawCountInPass := ts.length } pO
      = ({ installed := false, armedGuard := false, inTargetShaderPass := true,
           lastCapturedTexture := lastOpt none ts, drawCountInPass := ts.length },
         [OneShotEmit.endOfPass (lastOpt none ts) ts.length]) := by
    simp [oneShotUseProgram, hO]
  rw [lastOpt_none_getLast] at hdraws hfin
  simp [oneShotRun, oneShotStep, hstep1, oneShotRun_append, hdraws, hfin]

/-- Witness for C1: the spec's scenario with five draws in the target pass. -/
theorem oneShot_single_endOfPass_witness :
    (oneShotRun oneShotInit
        (GLEvent.bind progTarget ::
          ([tv 1, tv 2, tv 3, tv 4, tv 5].map GLEvent.draw ++
            [GLEvent.bind progOther]))).2
      = [OneShotEmit.endOfPass (some (tv 5)) 5] := by
  have h := oneShot_single_endOfPass progTarget progOther
    [tv 1, tv 2, tv 3, tv 4, tv 5] (by decide) (by decide)
  simpa using h

-- ====================================================================
--  Helper lemmas on the real-time detector
-- ====================================================================

theorem rtPassExit_inPass (s : RTState) :
    (rtPassExit s).1.inTargetShaderPass = s.inTargetShaderPass := by
  unfold rtPassExit
  cases hl : s.lastCapturedTexture with
  | none => rfl
  | some t =>
    cases hp : s.persistentTexture with
    | none => rfl
    | some b =>
      by_cases hv : t.valid = true
      · simp [hv]
      · simp [hv]

theorem rtPassExit_armed (s : RTState) :
    (rtPassExit s).1.isInterceptorArmed = s.isInterceptorArmed := by
  unfold rtPassExit
  cases hl : s.lastCapturedTexture with
  | none => rfl
  | some t =>
    cases hp : s.persistentTexture with
    | none => rfl
    | some b =>
      by_cases hv : t.valid = true
      · simp [hv]
      · simp [hv]

theorem rtPassExit_destroyed (s : RTState) :
    (rtPassExit s).1.destroyedIds = s.destroyedIds := by
  unfold rtPassExit
  cases hl : s.lastCapturedTexture with
  | none => rfl
  | some t =>
    cases hp : s.persistentTexture with
    | none => rfl
    | some b =>
      by_cases hv : t.valid = true
      · simp [hv]
      · simp [hv]

theorem rtPassExit_nextId (s : RTState) :
    (rtPassExit s).1.nextId = s.nextId := by
  unfold rtPassExit
  cases hl : s.lastCapturedTexture with
  | none => rfl
  | some t =>
    cases hp : s.persistentTexture with
    | none => rfl
    | some b =>
      by_cases hv : t.valid = true
      · simp [hv]
      · simp [hv]

theorem rtPassExit_len (s : RTState) : (rtPassExit s).2.length ≤ 1 := by
  unfold rtPassExit
  cases hl : s.lastCapturedTexture with
  | none => simp
  | some t =>
    cases hp : s.persistentTexture with
    | none => simp
    | some b =>
      by_cases hv : t.valid = true
      · simp [hv]
      · simp [hv]

theorem rtPassExit_tex_id (s : RTState) (b2 : Buffer)
    (h : (rtPassExit s).1.persistentTexture = some b2) :
    ∃ b, s.persistentTexture = some b ∧ b2.id = b.id ∧
      b2.width = b.width ∧ b2.height = b.height := by
  obtain ⟨inP, last, tex, ready, armed, ds, nid⟩ := s
  cases last with
  | none => exact ⟨b2, h, rfl, rfl, rfl⟩
  | some t =>
    cases tex with
    | none => simp [rtPassExit] at h
    | some b =>
      by_cases hv : t.valid = true
      · simp [rtPassExit, hv] at h
        exact ⟨b, rfl, by simp [← h], by simp [← h], by simp [← h]⟩
      · simp [rtPassExit, hv] at h
        exact ⟨b, rfl, by simp [← h], by simp [← h], by simp [← h]⟩

theorem rtPassExit_emit (s : RTState) (t : RTarget) (i w h : Nat)
    (he : (rtPassExit s).2 = [RTEmit.copy t i w h]) :
    ∃ b, s.persistentTexture = some b ∧ i = b.id := by
  unfold rtPassExit at he
  cases hl : s.lastCapturedTexture with
  | none =>
    rw [hl] at he
    exact absurd he (by simp)
  | some t0 =>
    cases hp : s.persistentTexture with
    | none =>
      rw [hl, hp] at he
      exact absurd he (by simp)
    | some b =>
      rw [hl, hp] at he
      by_cases hv : t0.valid = true
      · simp [hv] at he
        exact ⟨b, rfl, by simp [he]⟩
      · simp [hv] at he
  
theorem rtPassExit_ready_mono (s : RTState) (h : s.isApiReady = true) :
    (rtPassExit s).1.isApiReady = true := by
  unfold rtPassExit
  cases hl : s.lastCapturedTexture with
  | none => exact h
  | some t =>
    cases hp : s.persistentTexture with
    | none => exact h
    | some b =>
      by_cases hv : t.valid = true
      · simp [hv]
      · simp [hv, h]

theorem rtPassExit_ready_iff_emit (s : RTState) (h : s.isApiReady = false) :
    ((rtPassExit s).1.isApiReady = true ↔ (rtPassExit s).2 ≠ []) := by
  unfold rtPassExit
  cases hl : s.lastCapturedTexture with
  | none => simp [h]
  | some t =>
    cases hp : s.persistentTexture with
    | none => simp [h]
    | some b =>
      by_cases hv : t.valid = true
      · simp [hv]
      · simp [hv, h]

theorem rtUseProgram_not_armed (s : RTState) (p : Program)
    (h : s.isInterceptorArmed = false) : rtUseProgram s p = (s, []) := by
  simp [rtUseProgram, h]

theorem rtUseProgram_idle (s : RTState) (p : Program)
    (ha : s.isInterceptorArmed = true) (hp : s.inTargetShaderPass = false) :
    rtUseProgram s p
      = (if realTimeMatches p then { s with inTargetShaderPass := true } else s,
         []) := by
  simp [rtUseProgram, ha, hp]

theorem rtUseProgram_exit (s : RTState) (p : Program)
    (ha : s.isInterceptorArmed = true) (hp : s.inTargetShaderPass = true) :
    rtUseProgram s p
      = (if realTimeMatches p then
           { (rtPassExit { s with inTargetShaderPass := false }).1 with
               inTargetShaderPass := true }
         else (rtPassExit { s with inTargetShaderPass := false }).1,
         (rtPassExit { s with inTargetShaderPass := false }).2) := by
  simp [rtUseProgram, ha, hp]

-- ====================================================================
--  C2
-- ====================================================================

/-- C2 counterexample: re-binding the target program immediately after
exiting it does NOT start a new pass in the one-shot detector.  On the
concrete trace bind(target), draw, bind(target), draw, bind(other), the
detector emits exactly one `EndOfPass` (for the first pass, with one draw)
instead of the two the claim predicts, and after the back-to-back re-bind
the wrappers are already restored (`installed = false`), so the second
pass's draws are not counted anywhere. -/
theorem oneShot_backToBack_counterexample :
    (oneShotRun oneShotInit
        [GLEvent.bind progTarget, GLEvent.draw (tv 1), GLEvent.bind progTarget,
         GLEvent.draw (tv 2), GLEvent.bind progOther]).2
      = [OneShotEmit.endOfPass (some (tv 1)) 1]
    ∧ (oneShotRun oneShotInit
        [GLEvent.bind progTarget, GLEvent.draw (tv 1),
         GLEvent.bind progTarget]).1.installed = false := by
  decide

/-- C2 amended: in the real-time detector the claim's behaviour does hold —
in a bind-program invocation made while InPass, the end-of-pass emission is
computed from the pre-bind state with the InPass flag already cleared,
before the new program is evaluated for entry (the emission does not depend
on the new program, and the post-state is InPass exactly when the new
program matches); consequently back-to-back re-binding of the target ends
the current pass with its own copy and starts a fresh pass, and the two
passes' captures are emitted separately, never merged.  The one-shot
detector instead uninstalls itself at its first pass exit and never starts
a second pass (see the counterexample). -/
theorem rt_exit_before_entry (pT pO : Program) (t1 t2 : RTarget)
    (hT : realTimeMatches pT = true) (hO : realTimeMatches pO = false)
    (h1 : t1.valid = true) (h2 : t2.valid = true) :
    (∀ (s : RTState) (p : Program), s.isInterceptorArmed = true →
        s.inTargetShaderPass = true →
        (rtUseProgram s p).2
            = (rtPassExit { s with inTargetShaderPass := false }).2 ∧
        (rtUseProgram s p).1.inTargetShaderPass = realTimeMatches p) ∧
    (rtRun (canvasReadyRealTime true 800 600 1 rtInit)
        [RTEvent.bind pT, RTEvent.draw t1, RTEvent.bind pT,
         RTEvent.draw t2, RTEvent.bind pO]).2
      = [RTEmit.copy t1 0 800 600, RTEmit.copy t2 0 800 600] := by
  constructor
  · intro s p ha hp
    rw [rtUseProgram_exit s p ha hp]
    constructor
    · rfl
    · by_cases hm : realTimeMatches p = true
      · simp [hm]
      · rw [Bool.not_eq_true] at hm
        simp [hm, rtPassExit_inPass]
  · simp [rtRun, rtStep, rtUseProgram, rtPassExit, rtDrawElements,
      canvasReadyRealTime, onCanvasResize, armRealTimeCapture, rtInit,
      hT, hO, h1, h2]

/-- Witness for C2's amended theorem at concrete programs and targets. -/
theorem rt_exit_before_entry_witness :
    (rtRun (canvasReadyRealTime true 800 600 1 rtInit)
        [RTEvent.bind progTarget, RTEvent.draw (tv 1), RTEvent.bind progTarget,
         RTEvent.draw (tv 2), RTEvent.bind progOther]).2
      = [RTEmit.copy (tv 1) 0 800 600, RTEmit.copy (tv 2) 0 800 600] :=
  (rt_exit_before_entry progTarget progOther (tv 1) (tv 2)
    (by decide) (by decide) (by decide) (by decide)).2

-- ====================================================================
--  C3
-- ====================================================================

/-- C3 counterexample: after a first successful capture followed by a
resize, `isReady()` still returns true while `getTexture()` returns the
freshly recreated buffer, which has not yet been populated by any copy —
so `isReady()` is not "true exactly when getTexture() would return valid,
populated data". -/
theorem isReady_unpopulated_counterexample :
    isReady (rtRun (canvasReadyRealTime true 800 600 1 rtInit)
        [RTEvent.bind progTarget, RTEvent.draw (tv 1), RTEvent.bind progOther,
         RTEvent.resize 1920 1080 1]).1 = true
    ∧ getTexture (rtRun (canvasReadyRealTime true 800 600 1 rtInit)
        [RTEvent.bind progTarget, RTEvent.draw (tv 1), RTEvent.bind progOther,
         RTEvent.resize 1920 1080 1]).1
      = some { id := 1, width := 1920, height := 1080, resolution := 1,
               populated := false } := by
  decide

/-- C3 amended: `getTexture()` returns null whenever `isReady()` is false;
the ready flag is monotone under every event except teardown; it flips from
false to true exactly when an end-of-pass copy is emitted (the first
successful copy).  The flag is however only a record that some copy has
succeeded since activation: immediately after a resize the current buffer is
freshly recreated and not yet repopulated even though `isReady()` is still
true (see the counterexample). -/
theorem isReady_tracks_first_copy :
    (∀ s : RTState, isReady s = false → getTexture s = none) ∧
    (∀ (s : RTState) (e : RTEvent), e ≠ RTEvent.teardown →
        isReady s = true → isReady (rtStep s e).1 = true) ∧
    (∀ (s : RTState) (e : RTEvent), isReady s = false →
        isReady (rtStep s e).1 = true → (rtStep s e).2 ≠ []) ∧
    (∀ (s : RTState) (e : RTEvent), isReady s = false →
        (rtStep s e).2 ≠ [] → isReady (rtStep s e).1 = true) := by
  refine ⟨?_, ?_, ?_, ?_⟩
  · intro s h
    simp [getTexture, isReady] at *
    simp [h]
  · intro s e he h
    cases e with
    | bind p =>
      by_cases ha : s.isInterceptorArmed = true
      · by_cases hp : s.inTargetShaderPass = true
        · rw [show rtStep s (RTEvent.bind p) = rtUseProgram s p from rfl,
            rtUseProgram_exit s p ha hp]
          have hm := rtPassExit_ready_mono { s with inTargetShaderPass := false } h
          by_cases hq : realTimeMatches p = true
          · simpa [hq] using hm
          · rw [Bool.not_eq_true] at hq
            simpa [hq] using hm
        · rw [Bool.not_eq_true] at hp
          rw [show rtStep s (RTEvent.bind p) = rtUseProgram s p from rfl,
            rtUseProgram_idle s p ha hp]
          by_cases hq : realTimeMatches p = true
          · simpa [hq] using h
          · rw [Bool.not_eq_true] at hq
            simpa [hq] using h
      · rw [Bool.not_eq_true] at ha
        rw [show rtStep s (RTEvent.bind p) = rtUseProgram s p from rfl,
          rtUseProgram_not_armed s p ha]
        exact h
    | draw t =>
      simp only [rtStep, rtDrawElements]
      split
      · exact h
      · split
        · exact h
        · exact h
    | resize w h2 res => exact h
    | teardown => exact absurd rfl he
  · intro s e h0 h1
    cases e with
    | bind p =>
      by_cases ha : s.isInterceptorArmed = true
      · by_cases hp : s.inTargetShaderPass = true
        · rw [show rtStep s (RTEvent.bind p) = rtUseProgram s p from rfl,
            rtUseProgram_exit s p ha hp] at h1 ⊢
          have h0x : ({ s with inTargetShaderPass := false } : RTState).isApiReady
              = false := h0
          have hiff := rtPassExit_ready_iff_emit
            { s with inTargetShaderPass := false } h0x
          by_cases hq : realTimeMatches p = true
          · simp only [hq, if_pos] at h1
            simp only [isReady] at h1
            exact hiff.mp h1
          · rw [Bool.not_eq_true] at hq
            simp only [hq, Bool.false_eq_true, if_neg, reduceIte] at h1
            exact hiff.mp h1
        · rw [Bool.not_eq_true] at hp
          rw [show rtStep s (RTEvent.bind p) = rtUseProgram s p from rfl,
            rtUseProgram_idle s p ha hp] at h1
          by_cases hq : realTimeMatches p = true
          · simp [hq, isReady] at h1
            exact absurd h1 (by simp [isReady, h0] at h0 ⊢; simp [h0])
          · rw [Bool.not_eq_true] at hq
            simp [hq, isReady] at h1
            exact absurd h1 (by simp [isReady, h0] at h0 ⊢; simp [h0])
      · rw [Bool.not_eq_true] at ha
        rw [show rtStep s (RTEvent.bind p) = rtUseProgram s p from rfl,
          rtUseProgram_not_armed s p ha] at h1
        exact absurd h1 (by simp [isReady, h0] at h0 ⊢; simp [h0])
    | draw t =>
      simp only [rtStep, rtDrawElements] at h1
      exfalso
      revert h1
      split
      · intro h1; simp [isReady, h0] at h0 h1; exact absurd h1 (by simp [h0])
      · split
        · intro h1; simp [isReady] at h1; simp [isReady] at h0; simp [h0] at h1
        · intro h1; simp [isReady] at h1; simp [isReady] at h0; simp [h0] at h1
    | resize w h2 res =>
      simp only [rtStep, onCanvasResize, isReady] at h1
      simp only [isReady] at h0
      simp [h0] at h1
    | teardown =>
      simp only [rtStep, tearDownRealTime, isReady] at h1
      simp at h1
  · intro s e h0 hne
    cases e with
    | bind p =>
      by_cases ha : s.isInterceptorArmed = true
      · by_cases hp : s.inTargetShaderPass = true
        · rw [show rtStep s (RTEvent.bind p) = rtUseProgram s p from rfl,
            rtUseProgram_exit s p ha hp] at hne ⊢
          have h0x : ({ s with inTargetShaderPass := false } : RTState).isApiReady
              = false := h0
          have hiff := rtPassExit_ready_iff_emit
            { s with inTargetShaderPass := false } h0x
          by_cases hq : realTimeMatches p = true
          · simp only [hq, if_pos]
            simp only [isReady]
            exact hiff.mpr hne
          · rw [Bool.not_eq_true] at hq
            simp only [hq, Bool.false_eq_true, if_neg, reduceIte]
            exact hiff.mpr hne
        · rw [Bool.not_eq_true] at hp
          rw [show rtStep s (RTEvent.bind p) = rtUseProgram s p from rfl,
            rtUseProgram_idle s p ha hp] at hne
          exact absurd rfl hne
      · rw [Bool.not_eq_true] at ha
        rw [show rtStep s (RTEvent.bind p) = rtUseProgram s p from rfl,
          rtUseProgram_not_armed s p ha] at hne
        exact absurd rfl hne
    | draw t => exact absurd rfl hne
    | resize w h2 res => exact absurd rfl hne
    | teardown => exact absurd rfl hne

/-- Witness for C3's amended theorem: in the initial state the buffer is not
ready and `getTexture` returns null. -/
theorem isReady_tracks_first_copy_witness :
    getTexture rtInit = none :=
  isReady_tracks_first_copy.1 rtInit rfl

-- ====================================================================
--  More helper lemmas: allocation skeleton of rtUseProgram
-- ====================================================================

theorem rtUseProgram_destroyed (s : RTState) (p : Program) :
    (rtUseProgram s p).1.destroyedIds = s.destroyedIds := by
  by_cases ha : s.isInterceptorArmed = true
  · by_cases hp : s.inTargetShaderPass = true
    · rw [rtUseProgram_exit s p ha hp]
      by_cases hq : realTimeMatches p = true
      · simpa [hq] using rtPassExit_destroyed { s with inTargetShaderPass := false }
      · rw [Bool.not_eq_true] at hq
        simpa [hq] using rtPassExit_destroyed { s with inTargetShaderPass := false }
    · rw [Bool.not_eq_true] at hp
      rw [rtUseProgram_idle s p ha hp]
      by_cases hq : realTimeMatches p = true
      · simp [hq]
      · rw [Bool.not_eq_true] at hq
        simp [hq]
  · rw [Bool.not_eq_true] at ha
    rw [rtUseProgram_not_armed s p ha]

theorem rtUseProgram_nextId (s : RTState) (p : Program) :
    (rtUseProgram s p).1.nextId = s.nextId := by
  by_cases ha : s.isInterceptorArmed = true
  · by_cases hp : s.inTargetShaderPass = true
    · rw [rtUseProgram_exit s p ha hp]
      by_cases hq : realTimeMatches p = true
      · simpa [hq] using rtPassExit_nextId { s with inTargetShaderPass := false }
      · rw [Bool.not_eq_true] at hq
        simpa [hq] using rtPassExit_nextId { s with inTargetShaderPass := false }
    · rw [Bool.not_eq_true] at hp
      rw [rtUseProgram_idle s p ha hp]
      by_cases hq : realTimeMatches p = true
      · simp [hq]
      · rw [Bool.not_eq_true] at hq
        simp [hq]
  · rw [Bool.not_eq_true] at ha
    rw [rtUseProgram_not_armed s p ha]

theorem rtUseProgram_tex_id (s : RTState) (p : Program) (b2 : Buffer)
    (h : (rtUseProgram s p).1.persistentTexture = some b2) :
    ∃ b, s.persistentTexture = some b ∧ b2.id = b.id := by
  by_cases ha : s.isInterceptorArmed = true
  · by_cases hp : s.inTargetShaderPass = true
    · rw [rtUseProgram_exit s p ha hp] at h
      by_cases hq : realTimeMatches p = true
      · simp only [hq, if_pos] at h
        obtain ⟨b, hb, hid, _, _⟩ :=
          rtPassExit_tex_id { s with inTargetShaderPass := false } b2 h
        exact ⟨b, hb, hid⟩
      · rw [Bool.not_eq_true] at hq
        simp only [hq, Bool.false_eq_true, if_neg, reduceIte] at h
        obtain ⟨b, hb, hid, _, _⟩ :=
          rtPassExit_tex_id { s with inTargetShaderPass := false } b2 h
        exact ⟨b, hb, hid⟩
    · rw [Bool.not_eq_true] at hp
      rw [rtUseProgram_idle s p ha hp] at h
      by_cases hq : realTimeMatches p = true
      · simp only [hq, if_pos] at h
        exact ⟨b2, h, rfl⟩
      · rw [Bool.not_eq_true] at hq
        simp only [hq, Bool.false_eq_true, if_neg, reduceIte] at h
        exact ⟨b2, h, rfl⟩
  · rw [Bool.not_eq_true] at ha
    rw [rtUseProgram_not_armed s p ha] at h
    exact ⟨b2, h, rfl⟩

theorem rtUseProgram_emit (s : RTState) (p : Program) (t : RTarget)
    (i w h : Nat) (he : (rtUseProgram s p).2 = [RTEmit.copy t i w h]) :
    ∃ b, s.persistentTexture = some b ∧ i = b.id := by
  by_cases ha : s.isInterceptorArmed = true
  · by_cases hp : s.inTargetShaderPass = true
    · rw [rtUseProgram_exit s p ha hp] at he
      by_cases hq : realTimeMatches p = true
      · simp only [hq, if_pos] at he
        exact rtPassExit_emit { s with inTargetShaderPass := false } t i w h he
      · rw [Bool.not_eq_true] at hq
        simp only [hq, Bool.false_eq_true, if_neg, reduceIte] at he
        exact rtPassExit_emit { s with inTargetShaderPass := false } t i w h he
    · rw [Bool.not_eq_true] at hp
      rw [rtUseProgram_idle s p ha hp] at he
      exact absurd he (by simp)
  · rw [Bool.not_eq_true] at ha
    rw [rtUseProgram_not_armed s p ha] at he
    exact absurd he (by simp)

-- ====================================================================
--  C4
-- ====================================================================

/-- C4 counterexample: with a resize occurring between InPass entry and
the end of the pass, the copy at the following EndOfPass is NOT skipped —
the code checks only that the captured source is valid and that a
persistent texture exists, so the stale source is blitted into the freshly
recreated 1920x1080 buffer. -/
theorem resize_midpass_copy_counterexample :
    (rtRun (canvasReadyRealTime true 800 600 1 rtInit)
        [RTEvent.bind progTarget, RTEvent.draw (tv 1),
         RTEvent.resize 1920 1080 1, RTEvent.bind progOther]).2
      = [RTEmit.copy (tv 1) 1 1920 1080] := by
  decide

/-- C4 amended: if a resize occurs between InPass entry and EndOfPass, the
copy for that frame is performed (not skipped) into the newly created
buffer at the new dimensions; no exception is raised, the copy is never
performed into a destroyed allocation (the destination is always the live
persistent texture, which the allocation invariant separates from every
destroyed identity), and the next successful pass copy also lands in the
buffer sized to the new dimensions. -/
theorem resize_midpass_copy (pT pO : Program) (t t2 : RTarget)
    (hT : realTimeMatches pT = true) (hO : realTimeMatches pO = false)
    (hv : t.valid = true) (hv2 : t2.valid = true) :
    (rtRun (canvasReadyRealTime true 800 600 1 rtInit)
        [RTEvent.bind pT, RTEvent.draw t, RTEvent.resize 1920 1080 1,
         RTEvent.bind pO, RTEvent.bind pT, RTEvent.draw t2, RTEvent.bind pO]).2
      = [RTEmit.copy t 1 1920 1080, RTEmit.copy t2 1 1920 1080] ∧
    (∀ (s : RTState) (e : RTEvent), rtInvariant s → rtInvariant (rtStep s e).1) ∧
    (∀ (s : RTState) (e : RTEvent) (t3 : RTarget) (i w h : Nat),
        rtInvariant s → (rtStep s e).2 = [RTEmit.copy t3 i w h] →
        i ∉ s.destroyedIds) ∧
    rtInvariant (canvasReadyRealTime true 800 600 1 rtInit) := by
  refine ⟨?_, ?_, ?_, ?_⟩
  · simp [rtRun, rtStep, rtUseProgram, rtPassExit, rtDrawElements,
      onCanvasResize, canvasReadyRealTime, armRealTimeCapture, rtInit,
      hT, hO, hv, hv2]
  · intro s e hinv
    obtain ⟨hinv1, hinv2⟩ := hinv
    cases e with
    | bind p =>
      constructor
      · intro b2 hb2
        obtain ⟨b, hb, hid⟩ := rtUseProgram_tex_id s p b2 hb2
        obtain ⟨hbd, hbn⟩ := hinv1 b hb
        rw [show rtStep s (RTEvent.bind p) = rtUseProgram s p from rfl,
          rtUseProgram_destroyed, rtUseProgram_nextId, hid]
        exact ⟨hbd, hbn⟩
      · intro i hi
        rw [show rtStep s (RTEvent.bind p) = rtUseProgram s p from rfl,
          rtUseProgram_destroyed] at hi
        rw [show rtStep s (RTEvent.bind p) = rtUseProgram s p from rfl,
          rtUseProgram_nextId]
        exact hinv2 i hi
    | draw tc =>
      simp only [rtStep, rtDrawElements]
      split
      · exact ⟨hinv1, hinv2⟩
      · split
        · exact ⟨hinv1, hinv2⟩
        · exact ⟨hinv1, hinv2⟩
    | resize w h res =>
      simp only [rtStep, onCanvasResize]
      cases htex : s.persistentTexture with
      | none =>
        refine ⟨?_, ?_⟩
        · intro b2 hb2
          simp only [Option.some.injEq] at hb2
          constructor
          · rw [← hb2]
            intro hmem
            exact absurd (hinv2 _ hmem) (by simp)
          · rw [← hb2]
            simp
        · intro i hi
          exact Nat.lt_succ_of_lt (hinv2 i hi)
      | some b =>
        obtain ⟨hbd, hbn⟩ := hinv1 b htex
        refine ⟨?_, ?_⟩
        · intro b2 hb2
          simp only [Option.some.injEq] at hb2
          constructor
          · rw [← hb2]
            intro hmem
            simp only [List.mem_cons] at hmem
            rcases hmem with hmem | hmem
            · exact absurd hmem.symm (Nat.ne_of_lt hbn)
            · exact absurd (hinv2 _ hmem) (by simp)
          · rw [← hb2]
            simp
        · intro i hi
          simp only [List.mem_cons] at hi
          rcases hi with hi | hi
          · rw [hi]
            exact Nat.lt_succ_of_lt hbn
          · exact Nat.lt_succ_of_lt (hinv2 i hi)
    | teardown =>
      simp only [rtStep, tearDownRealTime]
      cases htex : s.persistentTexture with
      | none =>
        refine ⟨?_, ?_⟩
        · intro b2 hb2
          simp at hb2
        · intro i hi
          exact hinv2 i hi
      | some b =>
        obtain ⟨hbd, hbn⟩ := hinv1 b htex
        refine ⟨?_, ?_⟩
        · intro b2 hb2
          simp at hb2
        · intro i hi
          simp only [List.mem_cons] at hi
          rcases hi with hi | hi
          · rw [hi]; exact hbn
          · exact hinv2 i hi
  · intro s e t3 i w h hinv he
    cases e with
    | bind p =>
      obtain ⟨b, hb, hid⟩ := rtUseProgram_emit s p t3 i w h he
      rw [hid]
      exact (hinv.1 b hb).1
    | draw tc => exact absurd he (by simp [rtStep])
    | resize w2 h2 res => exact absurd he (by simp [rtStep])
    | teardown => exact absurd he (by simp [rtStep])
  · constructor
    · intro b hb
      simp [canvasReadyRealTime, onCanvasResize, armRealTimeCapture, rtInit]
        at hb
      rw [← hb]
      exact ⟨by decide, by decide⟩
    · intro i hi
      simp [canvasReadyRealTime, onCanvasResize, armRealTimeCapture, rtInit]
        at hi

/-- Witness for C4's amended theorem at concrete programs and targets. -/
theorem resize_midpass_copy_witness :
    (rtRun (canvasReadyRealTime true 800 600 1 rtInit)
        [RTEvent.bind progTarget, RTEvent.draw (tv 1),
         RTEvent.resize 1920 1080 1, RTEvent.bind progOther,
         RTEvent.bind progTarget, RTEvent.draw (tv 2),
         RTEvent.bind progOther]).2
      = [RTEmit.copy (tv 1) 1 1920 1080, RTEmit.copy (tv 2) 1 1920 1080] :=
  (resize_midpass_copy progTarget progOther (tv 1) (tv 2)
    (by decide) (by decide) (by decide) (by decide)).1

-- ====================================================================
--  C5
-- ====================================================================

/-- Helper: the installed wrappers are observationally identical to the
originals — the GL world evolves exactly as in the baseline, the returned
values are the originals' return values, and exactly the incoming calls are
forwarded, in order. -/
theorem tapRun_eq_baseline {W A R : Type} (o : OrigSem W A R) :
    ∀ (calls : List (GlCall A)) (det : RTState) (g : GlWorld W),
    (tapRun o det g calls).world = (baselineRun o g calls).world ∧
    (tapRun o det g calls).rets = (baselineRun o g calls).rets ∧
    (tapRun o det g calls).forwarded = calls := by
  intro calls
  induction calls with
  | nil => intro det g; exact ⟨rfl, rfl, rfl⟩
  | cons c cs ih =>
    intro det g
    cases c with
    | useProgramCall p =>
      obtain ⟨ihw, ihr, ihf⟩ :=
        ih (rtUseProgram det p).1 (o.onUseProgram g p).1
      refine ⟨?_, ?_, ?_⟩
      · simpa [tapRun, tapStep, baselineRun] using ihw
      · simp [tapRun, tapStep, baselineRun, ihr]
      · simp [tapRun, tapStep, baselineRun, ihf]
    | drawElementsCall a =>
      obtain ⟨ihw, ihr, ihf⟩ :=
        ih (rtDrawElements det (o.onDrawElements g a).1.currentTarget)
          (o.onDrawElements g a).1
      refine ⟨?_, ?_, ?_⟩
      · simpa [tapRun, tapStep, baselineRun] using ihw
      · simp [tapRun, tapStep, baselineRun, ihr]
      · simp [tapRun, tapStep, baselineRun, ihf]

/-- C5: for every call sequence fed through the installed tap, the
replacement entry points are observably identical to the originals from the
caller's point of view — the world and the returned values equal the
baseline's, and exactly the given calls are forwarded to the originals with
the same arguments and in the same order.  After `tearDownRealTime` the
armed flag is cleared and the original entry points are reinstated, so a
replayed call list is processed by the originals themselves, i.e. by
`baselineRun`, which by the first part is exactly the behaviour observed
through the tap as well. -/
theorem tap_call_transparency {W A R : Type} (o : OrigSem W A R)
    (det : RTState) (g : GlWorld W) (calls : List (GlCall A)) :
    ((tapRun o det g calls).world = (baselineRun o g calls).world ∧
     (tapRun o det g calls).rets = (baselineRun o g calls).rets ∧
     (tapRun o det g calls).forwarded = calls) ∧
    (tearDownRealTime det).isInterceptorArmed = false := by
  refine ⟨tapRun_eq_baseline o calls det g, ?_⟩
  simp [tearDownRealTime]

/-- Witness for C5 at a concrete original semantics, world and call list. -/
theorem tap_call_transparency_witness :
    (tapRun origSemFix rtInit glWorldFix
        [GlCall.useProgramCall progTarget, GlCall.drawElementsCall 5,
         GlCall.useProgramCall progOther]).rets
      = (baselineRun origSemFix glWorldFix
        [GlCall.useProgramCall progTarget, GlCall.drawElementsCall 5,
         GlCall.useProgramCall progOther]).rets :=
  (tap_call_transparency origSemFix rtInit glWorldFix
    [GlCall.useProgramCall progTarget, GlCall.drawElementsCall 5,
     GlCall.useProgramCall progOther]).1.2.1

-- ====================================================================
--  C6
-- ====================================================================

/-- Helper: one `filter.apply` invocation never emits the readiness
notification (its emissions are empty or a single copy). -/
theorem filterApplyWrapper_no_notify (t : RTarget) (s : ApiModeState) :
    ((filterApplyWrapper t s).2.countP (fun e => isNotifyReady e)) = 0 := by
  unfold filterApplyWrapper updateFromSource
  by_cases hw : s.wrapperInstalled = true
  · simp only [hw, if_pos]
    by_cases hv : t.valid = false
    · simp [hv]
    · cases htex : s.persistentTexture with
      | none => simp [hv, htex]
      | some b => simp [hv, htex, isNotifyReady]
  · rw [Bool.not_eq_true] at hw
    simp [hw]

/-- Helper: no run of `filter.apply` invocations ever emits the readiness
notification. -/
theorem filterApplyRun_no_notify : ∀ (srcs : List RTarget) (s : ApiModeState),
    ((filterApplyRun s srcs).2.countP (fun e => isNotifyReady e)) = 0 := by
  intro srcs
  induction srcs with
  | nil => intro s; rfl
  | cons t ts ih =>
    intro s
    simp only [filterApplyRun, List.countP_append]
    rw [ih, filterApplyWrapper_no_notify]

/-- C6 counterexample: the `illuminationBufferReady` notification is fired
by the `canvasReady` activation itself, before any copy has been performed:
the activation's emission trace is exactly the notification, and the first
copy only appears in a later `filter.apply` invocation.  This contradicts
"fired after the first successful end-of-pass copy has occurred, not
before". -/
theorem readiness_hook_counterexample :
    (canvasReadyApiMode true true 800 600 apiInit).2 = [ApiEmit.notifyReady]
    ∧ (filterApplyRun (canvasReadyApiMode true true 800 600 apiInit).1
        [tv 3]).2 = [ApiEmit.copyPerformed 0] := by
  decide

/-- C6 amended: the readiness notification is fired exactly once per
activation lifecycle, as the last emission of the activation itself — after
the buffer is created and the tap is installed but before any copy (the
activation emits no copy, and subsequent `filter.apply` invocations emit
copies but never the notification).  The real-time variant of the third
module version sets its internal ready flag on the first copy but fires no
notification at all. -/
theorem readiness_hook_once_at_activation (lw tgt : Bool) (w h : Nat)
    (srcs : List RTarget) :
    ((canvasReadyApiMode lw tgt w h apiInit).2.countP
        (fun e => isNotifyReady e) = 1) ∧
    ((canvasReadyApiMode lw tgt w h apiInit).2.getLast?
        = some ApiEmit.notifyReady) ∧
    (∀ i, ApiEmit.copyPerformed i ∉ (canvasReadyApiMode lw tgt w h apiInit).2) ∧
    ((filterApplyRun (canvasReadyApiMode lw tgt w h apiInit).1 srcs).2.countP
        (fun e => isNotifyReady e) = 0) := by
  refine ⟨?_, ?_, ?_, ?_⟩
  · cases lw <;> cases tgt <;>
      simp [canvasReadyApiMode, apiInitialize, isNotifyReady]
  · cases lw <;> cases tgt <;>
      simp [canvasReadyApiMode, apiInitialize]
  · intro i
    cases lw <;> cases tgt <;>
      simp [canvasReadyApiMode, apiInitialize]
  · exact filterApplyRun_no_notify srcs _

/-- Witness for C6's amended theorem at a concrete activation. -/
theorem readiness_hook_once_at_activation_witness :
    ((canvasReadyApiMode true true 800 600 apiInit).2.countP
        (fun e => isNotifyReady e) = 1) ∧
    ((filterApplyRun (canvasReadyApiMode true true 800 600 apiInit).1
        [tv 3, tv 4]).2.countP (fun e => isNotifyReady e) = 0) :=
  ⟨(readiness_hook_once_at_activation true true 800 600 [tv 3, tv 4]).1,
   (readiness_hook_once_at_activation true true 800 600 [tv 3, tv 4]).2.2.2⟩

-- ====================================================================
--  C7
-- ====================================================================

/-- C7: when resolving a program's shader identifier throws or fails
(modelled by an unintrospectable source), the failure is swallowed and the
program is treated as a non-match by both detectors: the resolved name
stays `"UnknownProgram"`, neither detector enters a pass, a detector that
is Idle is left completely unchanged (it keeps running), and the wrapped
entry point still forwards the very same call to the original and hands its
return value back to the caller. -/
theorem resolution_failure_nonmatch (p : Program) (hp : p.src = none)
    (sOne : OneShotState) (sRt : RTState) :
    oneShotResolveName p = "UnknownProgram" ∧
    oneShotMatches p = false ∧
    realTimeMatches p = false ∧
    (sOne.inTargetShaderPass = false → oneShotUseProgram sOne p = (sOne, [])) ∧
    (sRt.inTargetShaderPass = false → rtUseProgram sRt p = (sRt, [])) ∧
    (∀ {W A R : Type} (o : OrigSem W A R) (det : RTState) (g : GlWorld W),
        (tapStep o det g (GlCall.useProgramCall p)).world
            = (o.onUseProgram g p).1 ∧
        (tapStep o det g (GlCall.useProgramCall p)).ret
            = (o.onUseProgram g p).2 ∧
        (tapStep o det g (GlCall.useProgramCall p)).forwarded
            = [GlCall.useProgramCall p]) := by
  have hres : oneShotResolveName p = "UnknownProgram" := by
    simp [oneShotResolveName, hp]
  have hm1 : oneShotMatches p = false := by
    rw [oneShotMatches, hres]
    decide
  have hm2 : realTimeMatches p = false := by
    simp [realTimeMatches, hp]
  refine ⟨hres, hm1, hm2, ?_, ?_, ?_⟩
  · intro hpass
    by_cases hi : sOne.installed = false
    · simp [oneShotUseProgram, hi]
    · rw [Bool.not_eq_false] at hi
      simp [oneShotUseProgram, hi, hpass, hm1]
  · intro hpass
    by_cases ha : sRt.isInterceptorArmed = true
    · rw [rtUseProgram_idle sRt p ha hpass, hm2]
      simp
    · rw [Bool.not_eq_true] at ha
      exact rtUseProgram_not_armed sRt p ha
  · intro W A R o det g
    exact ⟨rfl, rfl, rfl⟩

/-- Witness for C7 on a concrete opaque program. -/
theorem resolution_failure_nonmatch_witness :
    oneShotMatches progOpaque = false ∧ realTimeMatches progOpaque = false ∧
    oneShotUseProgram oneShotInit progOpaque = (oneShotInit, []) :=
  ⟨(resolution_failure_nonmatch progOpaque rfl oneShotInit rtInit).2.1,
   (resolution_failure_nonmatch progOpaque rfl oneShotInit rtInit).2.2.1,
   (resolution_failure_nonmatch progOpaque rfl oneShotInit rtInit).2.2.2.1 rfl⟩

-- ====================================================================
--  C8
-- ====================================================================

/-- C8: arming the one-shot debug capture aborts without installing
anything in exactly two cases — when the guard is already set the attempt
only emits a warning and the entire state is unchanged, and when no WebGL
context is obtainable an error is emitted and the state is again returned
unchanged with the guard clear (nothing installed).  In every other case
the wrappers are installed with fresh closure state and the guard set. -/
theorem armDebug_abort_cases :
    (∀ (s : OneShotState) (gl : Bool), s.armedGuard = true →
        armOneShotDebugCapture gl s = (s, [ArmNotice.warnAlreadyArmed])) ∧
    (∀ s : OneShotState, s.armedGuard = false →
        armOneShotDebugCapture false s = (s, [ArmNotice.errorNoGl])) ∧
    (∀ s : OneShotState, s.armedGuard = false →
        armOneShotDebugCapture true s = (oneShotInit, [ArmNotice.infoReady])) := by
  refine ⟨?_, ?_, ?_⟩
  · intro s gl h
    simp [armOneShotDebugCapture, h]
  · intro s h
    obtain ⟨i, g, ip, l, d⟩ := s
    simp only at h
    subst h
    simp [armOneShotDebugCapture]
  · intro s h
    simp [armOneShotDebugCapture, h]

/-- Witness for C8: a double-arm attempt from the armed state is rejected
with only a warning. -/
theorem armDebug_abort_cases_witness :
    armOneShotDebugCapture true oneShotInit
      = (oneShotInit, [ArmNotice.warnAlreadyArmed]) :=
  armDebug_abort_cases.1 oneShotInit true rfl

-- ====================================================================
--  C9
-- ====================================================================

/-- C9: `tearDownRealTime` is idempotent — calling it twice in a row gives
the same state as calling it once (the second call is a no-op, and being a
total function it can never raise), and after any call the buffer reference
is null and both flags are reset. -/
theorem tearDown_idempotent :
    (∀ s : RTState,
        tearDownRealTime (tearDownRealTime s) = tearDownRealTime s) ∧
    (∀ s : RTState, (tearDownRealTime s).persistentTexture = none ∧
        (tearDownRealTime s).isApiReady = false ∧
        (tearDownRealTime s).isInterceptorArmed = false) := by
  constructor
  · intro s
    simp [tearDownRealTime]
  · intro s
    exact ⟨rfl, rfl, rfl⟩

/-- Witness for C9 at the initial state. -/
theorem tearDown_idempotent_witness :
    tearDownRealTime (tearDownRealTime rtInit) = tearDownRealTime rtInit :=
  tearDown_idempotent.1 rtInit

-- ====================================================================
--  C10
-- ====================================================================

/-- C10: the real-time exit branch clears the InPass flag before the blit —
the emission of a bind-program invocation from InPass is exactly the one
computed by `rtPassExit` on the flag-cleared state, a single bind-program
invocation emits at most one copy, and from any state with the flag clear,
re-entrant processing of the blit's own calls (non-matching binds and
draws) changes nothing and emits nothing, so the blit can neither trigger a
second end-of-pass copy nor be recorded as draws of a pass. -/
theorem rt_blit_reentrancy_safe :
    (∀ (s : RTState) (p : Program), (rtUseProgram s p).2.length ≤ 1) ∧
    (∀ (s : RTState) (p : Program), s.isInterceptorArmed = true →
        s.inTargetShaderPass = true →
        (rtUseProgram s p).2
          = (rtPassExit { s with inTargetShaderPass := false }).2) ∧
    (∀ (evs : List RTEvent) (s : RTState), s.inTargetShaderPass = false →
        (∀ e ∈ evs, rtReentrantEvent e) → rtRun s evs = (s, [])) := by
  refine ⟨?_, ?_, ?_⟩
  · intro s p
    by_cases ha : s.isInterceptorArmed = true
    · by_cases hp : s.inTargetShaderPass = true
      · rw [rtUseProgram_exit s p ha hp]
        exact rtPassExit_len { s with inTargetShaderPass := false }
      · rw [Bool.not_eq_true] at hp
        rw [rtUseProgram_idle s p ha hp]
        simp
    · rw [Bool.not_eq_true] at ha
      rw [rtUseProgram_not_armed s p ha]
      simp
  · intro s p ha hp
    rw [rtUseProgram_exit s p ha hp]
  · intro evs
    induction evs with
    | nil => intro s _ _; rfl
    | cons e es ih =>
      intro s hpass hall
      have he := hall e (by simp)
      have hes : ∀ x ∈ es, rtReentrantEvent x := by
        intro x hx
        exact hall x (by simp [hx])
      cases e with
      | bind p =>
        have hm : realTimeMatches p = false := he
        have hstep : rtStep s (RTEvent.bind p) = (s, []) := by
          by_cases ha : s.isInterceptorArmed = true
          · rw [show rtStep s (RTEvent.bind p) = rtUseProgram s p from rfl,
              rtUseProgram_idle s p ha hpass, hm]
            simp
          · rw [Bool.not_eq_true] at ha
            exact rtUseProgram_not_armed s p ha
        simp only [rtRun, hstep, ih s hpass hes, List.nil_append]
      | draw t =>
        have hstep : rtStep s (RTEvent.draw t) = (s, []) := by
          by_cases ha : s.isInterceptorArmed = true
          · simp [rtStep, rtDrawElements, ha, hpass]
          · rw [Bool.not_eq_true] at ha
            simp [rtStep, rtDrawElements, ha]
        simp only [rtRun, hstep, ih s hpass hes, List.nil_append]
      | resize w h res => exact absurd he (by simp [rtReentrantEvent])
      | teardown => exact absurd he (by simp [rtReentrantEvent])

/-- Witness for C10: a concrete blit-internal call sequence (a sprite-shader
bind followed by a draw) leaves the Idle detector untouched and emits
nothing. -/
theorem rt_blit_reentrancy_safe_witness :
    rtRun rtInit [RTEvent.bind progOther, RTEvent.draw (tv 1)]
      = (rtInit, []) :=
  rt_blit_reentrancy_safe.2.2 [RTEvent.bind progOther, RTEvent.draw (tv 1)]
    rtInit rfl
    (by
      intro e he
      simp only [List.mem_cons, List.not_mem_nil, or_false] at he
      rcases he with h | h
      · subst h
        exact (by decide : realTimeMatches progOther = false)
      · subst h
        trivial)
